import Mathlib

/-!
Verification of the poll-dedupe-persist loop of the research-paper bot.

The repository has three source files:
* `app.py` — Flask variant: SQLite store (`init_db`, `insert_paper`,
  `get_all_papers`), ArXiv fetch (`search_arxiv`), one-run logic
  (`perform_search_and_log`), background loop (`run_scheduled_bot`) and the
  manual trigger route (`fetch_and_log`).
* `main.py` — standalone variant: same fetch, Airtable logging with a CSV
  fallback (`log_to_csv`), config loaded once at startup.
* `airtable_helper.py` — `AirtableLogger` with `create_record` and
  `record_exists`.

The embedding below models each of these functions directly from the source.
SQLite statement behaviour is modelled at the level the code uses it:
an `INSERT` either commits one new row (appended at the end of the table)
or raises `IntegrityError` (NOT NULL or UNIQUE violation) leaving the table
unchanged; `SELECT ... ORDER BY published_date DESC` returns a permutation
of the rows sorted by that column.
-/

namespace ResearcherBot

/-- A raw ArXiv API result as the Python code accesses it
(`paper.title`, `paper.authors`, `paper.published`, `paper.summary`,
`paper.entry_id`, `paper.pdf_url`).  Fields an external result might lack
are `Option`; `published` is kept as the already-formatted date string the
code would produce with `strftime`, `none` meaning `paper.published is None`
(on which `.strftime` raises). -/
structure RawResult where
  title : Option String
  authors : List String
  published : Option String
  summary : Option String
  entry_id : Option String
  pdf_url : Option String
deriving DecidableEq, Repr

/-- The `paper_data` dict built in `perform_search_and_log` (app.py).
`title` and `summary` stay `Option` because a `None` Python value flows into
the dict unchanged; `published_date`, `arxiv_url` and `arxiv_id` are plain
strings because the dict construction raises before completing when
`published` or `entry_id` is `None`. -/
structure PaperData where
  title : Option String
  authors : String
  published_date : String
  summary : Option String
  arxiv_url : String
  pdf_url : String
  arxiv_id : String
  timestamp : String
deriving DecidableEq, Repr

/-- Characters of the current (last) `/`-separated piece, reset at each
separator. -/
def splitLastAux : List Char → List Char → List Char
  | [], acc => acc.reverse
  | c :: cs, acc =>
    if c = '/' then splitLastAux cs [] else splitLastAux cs (c :: acc)

/-- Python's `paper.entry_id.split('/')[-1]` — the last `/`-separated piece (Python
keeps an empty final piece after a trailing separator, and returns the
whole string when no separator occurs). -/
def splitLast (s : String) : String :=
  String.mk (splitLastAux s.data [])

/-- Building the `paper_data` dict in `perform_search_and_log` (app.py,
lines 140-149).  Python evaluates the dict values in order: the
`Published Date` entry calls `.strftime` on `paper.published` (raises on
`None`), and the `ArXiv ID` entry calls `.split` on `paper.entry_id`
(raises on `None`).  Any such exception propagates to the caller, modelled
as `.error`. -/
def buildPaperData (r : RawResult) (now : String) : Except Unit PaperData :=
  match r.published with
  | none => .error ()
  | some pub =>
    match r.entry_id with
    | none => .error ()
    | some eid =>
      .ok { title := r.title
            authors := String.intercalate ", " r.authors
            published_date := pub
            summary := r.summary
            arxiv_url := eid
            pdf_url := (r.pdf_url.getD "")
            arxiv_id := splitLast eid
            timestamp := now }

/-- The `papers` table created by `init_db`: a sequence of committed rows in
insertion order.  The schema declares `title, authors, published_date,
summary, arxiv_url, arxiv_id, timestamp` NOT NULL and `arxiv_url`,
`arxiv_id` UNIQUE. -/
def DB := List PaperData

/-- The NOT NULL checks a row must pass: of the dict's values only `Title`
and `Summary` can still be `None` when the INSERT executes. -/
def notNullOk (p : PaperData) : Bool :=
  p.title.isSome && p.summary.isSome

/-- The UNIQUE constraints on `arxiv_url` and `arxiv_id`: the new row may
share neither column value with a stored row. -/
def uniqueOk (db : List PaperData) (p : PaperData) : Bool :=
  db.all (fun q => q.arxiv_url != p.arxiv_url && q.arxiv_id != p.arxiv_id)

/-- Function `insert_paper` (app.py, lines 42-71): executes the INSERT; a constraint
violation raises `sqlite3.IntegrityError`, which the function catches and
turns into `False`, leaving the table as it was (a failed single statement
changes nothing).  On success the row is committed and `True` returned. -/
def insert_paper (db : List PaperData) (p : PaperData) : Bool × List PaperData :=
  if notNullOk p && uniqueOk db p then (true, db ++ [p]) else (false, db)

/-- Number of stored rows carrying a given `arxiv_id`. -/
def countId (db : List PaperData) (k : String) : Nat :=
  db.countP (fun q => q.arxiv_id == k)

/-- Bytewise-lexicographic strict comparison of character lists: SQLite's
BINARY collation, under which `ORDER BY` compares TEXT columns (for the
ASCII date strings the code stores, bytewise and codepointwise agree). -/
def charListLt : List Char → List Char → Bool
  | [], [] => false
  | [], _ :: _ => true
  | _ :: _, [] => false
  | a :: as, b :: bs =>
    if a < b then true else if b < a then false else charListLt as bs

/-- Strict BINARY-collation comparison on strings. -/
def strLt (a b : String) : Bool := charListLt a.data b.data

/-- Row `b` may follow row `a` in a `published_date DESC` ordering:
`b`'s date is not strictly larger than `a`'s. -/
def descOk (a b : PaperData) : Prop :=
  strLt a.published_date b.published_date = false

instance (a b : PaperData) : Decidable (descOk a b) := by
  unfold descOk; infer_instance

/-- Inserting one row into a list kept in `published_date DESC` order. -/
def insertDesc (p : PaperData) : List PaperData → List PaperData
  | [] => [p]
  | q :: rest =>
    if strLt q.published_date p.published_date then p :: q :: rest
    else q :: insertDesc p rest

/-- Function `get_all_papers` (app.py, lines 73-82): `SELECT * FROM papers ORDER BY
published_date DESC`.  Modelled as sorting the table's rows with rows of
larger `published_date` first (BINARY collation). -/
def get_all_papers (db : List PaperData) : List PaperData :=
  db.foldr insertDesc []

/-- One event of iterating `client.results(search)`: the iterator either
yields a result or raises (network error, rate limit, malformed feed). -/
abbrev FetchEvent := Except Unit RawResult

/-- The `for result in client.results(search)` loop of `search_arxiv`
(app.py, lines 122-129; identically main.py, lines 33-39): each yielded
result is appended to `results`; the first exception stops the iteration,
is caught, its message printed, and the accumulated list returned.  The
second component records whether the error handler printed. -/
def fetchLoop (acc : List RawResult) : List FetchEvent → List RawResult × Bool
  | [] => (acc, false)
  | .ok r :: rest => fetchLoop (acc ++ [r]) rest
  | .error _ :: _ => (acc, true)

/-- Function `search_arxiv` (app.py, lines 110-129): builds the query, runs the
client and collects results, catching any exception raised while fetching.
Never raises itself. -/
def search_arxiv (events : List FetchEvent) : List RawResult × Bool :=
  fetchLoop [] events

/-- The per-paper loop of `perform_search_and_log` (app.py, lines 139-151):
build `paper_data` for each result and call `insert_paper`. -/
structure LoopResult where
  /-- the table when the loop ends (or when the exception escapes) -/
  db : List PaperData
  /-- papers_logged_this_run -/
  logged : Nat
  /-- the records passed to `insert_paper`, in order -/
  attempts : List PaperData
  /-- an exception escaped the loop (it propagates to the caller) -/
  aborted : Bool
deriving DecidableEq, Repr

/-- The loop body: building the dict can raise (see `buildPaperData`), and
that exception is not caught inside `perform_search_and_log`, so the loop
stops and the partial state propagates; otherwise the record is offered to
`insert_paper` and the loop continues with the next result. -/
def logLoop (db : List PaperData) (now : String) : List RawResult → LoopResult
  | [] => ⟨db, 0, [], false⟩
  | r :: rest =>
    match buildPaperData r now with
    | .error _ => ⟨db, 0, [], true⟩
    | .ok pd =>
      let step := insert_paper db pd
      let res := logLoop step.2 now rest
      ⟨res.db, (if step.1 then 1 else 0) + res.logged, pd :: res.attempts, res.aborted⟩

/-- Function `perform_search_and_log` (app.py, lines 132-154): fetch, then the
per-paper loop (an escaping exception also skips
`save_last_run_timestamp`). -/
def perform_search_and_log (db : List PaperData) (events : List FetchEvent)
    (now : String) : LoopResult :=
  logLoop db now (search_arxiv events).1

/-- The `config.json` dict the code reads with `.get` and defaults. -/
structure ConfigDict where
  arxiv_keywords : Option (List String)
  arxiv_max_results_per_run : Option Nat
  sleep_duration_hours : Option Nat
deriving DecidableEq, Repr

/-- The state of `config.json` on disk when a `load_config` call reads it. -/
inductive ConfigFile where
  | missing
  | invalid
  | valid (d : ConfigDict)
deriving DecidableEq, Repr

/-- Function `load_config` (app.py, lines 87-98): a missing file or invalid JSON is
caught, an error printed, and `{}` returned. -/
def load_config : ConfigFile → ConfigDict
  | .missing => ⟨none, none, none⟩
  | .invalid => ⟨none, none, none⟩
  | .valid d => d

/-- Reading `config.get("arxiv_keywords", [])`. -/
def cfgKeywords (d : ConfigDict) : List String :=
  d.arxiv_keywords.getD []

/-- Observable outcome of one run invocation (one iteration of the
scheduled loop, or one `/fetch_and_log` request). -/
structure RunOutcome where
  db : List PaperData
  /-- number of calls made to `search_arxiv` (the external fetch) -/
  searchCalls : Nat
  inserted : Nat
  /-- the records this invocation passed to `insert_paper` -/
  attempts : List PaperData
  /-- the empty-keyword skip message was printed -/
  skipLogged : Bool
  /-- the `except` handler around the run body fired -/
  exceptionCaught : Bool
  /-- control reaches the point after the run body (the `finally` sleep
  for the scheduled loop, the redirect for the manual route) -/
  continues : Bool
  /-- the keyword list this invocation was parameterized with -/
  usedKeywords : List String
deriving DecidableEq, Repr

/-- One iteration of the `while True` body of `run_scheduled_bot`
(app.py, lines 181-202): re-load the config, skip with a printed reason
when the keyword list is empty, otherwise perform one search-and-log run;
any exception is caught by the `except`, and the `finally` always computes
the next-run time, sleeps, and loops again. -/
def run_scheduled_bot_iter (f : ConfigFile) (events : List FetchEvent)
    (now : String) (db : List PaperData) : RunOutcome :=
  let kws := cfgKeywords (load_config f)
  if kws.isEmpty then
    ⟨db, 0, 0, [], true, false, true, kws⟩
  else
    let res := perform_search_and_log db events now
    ⟨res.db, 1, res.logged, res.attempts, false, res.aborted, true, kws⟩

/-- The `/fetch_and_log` route (app.py, lines 232-244): re-load the config,
skip when the keyword list is empty, else run `perform_search_and_log` and
redirect back to the index. -/
def fetch_and_log (f : ConfigFile) (events : List FetchEvent)
    (now : String) (db : List PaperData) : RunOutcome :=
  let kws := cfgKeywords (load_config f)
  if kws.isEmpty then
    ⟨db, 0, 0, [], true, false, true, kws⟩
  else
    let res := perform_search_and_log db events now
    ⟨res.db, 1, res.logged, res.attempts, false, res.aborted, true, kws⟩

/-- The table state after run `n` of the scheduled loop, given the content
of `config.json` and the API's behaviour at each run. -/
def app_bot_state (store : Nat → ConfigFile) (events : Nat → List FetchEvent)
    (nows : Nat → String) (db : List PaperData) : Nat → List PaperData
  | 0 => db
  | n + 1 =>
    (run_scheduled_bot_iter (store n) (events n) (nows n)
      (app_bot_state store events nows db n)).db

/-- The outcome of run `n` of the scheduled loop. -/
def app_run_outcome (store : Nat → ConfigFile) (events : Nat → List FetchEvent)
    (nows : Nat → String) (db : List PaperData) (n : Nat) : RunOutcome :=
  run_scheduled_bot_iter (store n) (events n) (nows n)
    (app_bot_state store events nows db n)

/-- Folding `insert_paper` over a sequence of attempted records: the
serialized order in which the individual INSERT statements of any
interleaving of concurrent run invocations reach SQLite (each statement is
atomic).  Returns the final table and each attempt's return value. -/
def applyInserts (db : List PaperData) : List PaperData → List PaperData × List Bool
  | [] => (db, [])
  | p :: rest =>
    let step := insert_paper db p
    let res := applyInserts step.2 rest
    (res.1, step.1 :: res.2)

/-- The `paper_data` dict built in main.py (lines 102-111): unlike app.py
the `ArXiv ID` field keeps the full `entry_id` (no `.split`), so the id and
URL values stay `Option`; only `paper.published.strftime` can raise. -/
structure PaperFields where
  title : Option String
  authors : String
  published_date : String
  summary : Option String
  arxiv_url : Option String
  pdf_url : String
  arxiv_id : Option String
  timestamp : String
deriving DecidableEq, Repr

/-- Building `paper_data` in main.py: raises exactly when
`paper.published` is `None`. -/
def buildPaperFields (r : RawResult) (now : String) : Except Unit PaperFields :=
  match r.published with
  | none => .error ()
  | some pub =>
    .ok { title := r.title
          authors := String.intercalate ", " r.authors
          published_date := pub
          summary := r.summary
          arxiv_url := r.entry_id
          pdf_url := (r.pdf_url.getD "")
          arxiv_id := r.entry_id
          timestamp := now }

/-- The remote Airtable table plus the failure modes of its API. -/
structure AirtableState where
  records : List PaperFields
  /-- whether `search_by_value` raises (backend unreachable) -/
  searchFails : Bool
  /-- whether `insert` raises -/
  insertFails : Bool
deriving DecidableEq, Repr

/-- Method `AirtableLogger.record_exists` (airtable_helper.py, lines 29-36):
`search_by_value` on the `"ArXiv ID"` field; any exception is caught, a
message printed, and `False` returned. -/
def record_exists (st : AirtableState) (v : Option String) : Bool :=
  if st.searchFails then false
  else st.records.any (fun q => q.arxiv_id == v)

/-- Method `AirtableLogger.create_record` (airtable_helper.py, lines 19-27):
`insert` the fields; an exception is caught and `None` returned.  Returns
whether a record came back, and the new table state. -/
def create_record (st : AirtableState) (p : PaperFields) : Bool × AirtableState :=
  if st.insertFails then (false, st)
  else (true, { st with records := st.records ++ [p] })

/-- Function `log_to_csv` (main.py, lines 41-55): opens `logged_papers.csv` in
append mode (writing the header first when the file did not exist) and
writes the row.  Modelled as the list of data rows; no read of existing
rows happens. -/
def log_to_csv (csv : List PaperFields) (p : PaperFields) : List PaperFields :=
  csv ++ [p]

/-- Observable outcome of one iteration of the per-paper loop in main.py. -/
structure MainStepResult where
  airtable : Option AirtableState
  csv : List PaperFields
  /-- whether `record_exists` ran before any append -/
  existenceChecked : Bool
  /-- whether `create_record` was called (an insertion was attempted) -/
  insertAttempted : Bool
  /-- a row was appended (to Airtable or to the CSV) -/
  appended : Bool
  /-- building `paper_data` raised (escapes to the outer handler) -/
  raised : Bool
  loggedCount : Nat
deriving DecidableEq, Repr

/-- One iteration of the per-paper loop in main.py (lines 96-120): with an
active Airtable logger the paper is skipped when `record_exists` reports
it, otherwise `paper_data` is built and written via `create_record`; with
no logger the CSV fallback writes unconditionally — no existence check of
any kind runs on that path. -/
def main_step (logger : Option AirtableState) (csv : List PaperFields)
    (r : RawResult) (now : String) : MainStepResult :=
  match logger with
  | some st =>
    if record_exists st r.entry_id then
      ⟨some st, csv, true, false, false, false, 0⟩
    else
      match buildPaperFields r now with
      | .error _ => ⟨some st, csv, true, false, false, true, 0⟩
      | .ok pd =>
        let res := create_record st pd
        ⟨some res.2, csv, true, true, res.1, false, if res.1 then 1 else 0⟩
  | none =>
    match buildPaperFields r now with
    | .error _ => ⟨none, csv, false, false, false, true, 0⟩
    | .ok pd => ⟨none, log_to_csv csv pd, false, false, true, false, 1⟩

/-- main.py startup (lines 57-70): `load_config` exits the process on a
missing or invalid file (`exit(1)`), and startup also exits when the
keyword list is empty.  `none` models process exit; otherwise the keyword
list is bound once, before the `while True` loop. -/
def main_startup_keywords (store : Nat → ConfigFile) : Option (List String) :=
  match store 0 with
  | .missing => none
  | .invalid => none
  | .valid d =>
    if (cfgKeywords d).isEmpty then none else some (cfgKeywords d)

/-- The keyword list run `n` of main.py's loop searches with: the one bound
at startup — the loop body (lines 86-130) never re-reads `config.json`. -/
def main_used_keywords (store : Nat → ConfigFile) (_n : Nat) : Option (List String) :=
  main_startup_keywords store

/-- Sample well-formed raw result (entry id `"x/1"`). -/
def rawA : RawResult :=
  ⟨some "A", ["Al"], some "2024-01-01", some "sa", some "x/1", some "p"⟩

/-- Sample raw result missing its entry identifier. -/
def rawNoId : RawResult :=
  ⟨some "B", ["Bo"], some "2024-01-02", some "sb", none, none⟩

/-- Sample raw result missing its title (all else present). -/
def rawNoTitle : RawResult :=
  ⟨none, ["Cy"], some "2024-01-03", some "sc", some "x/3", none⟩

/-- The record `buildPaperData rawA "t0"` produces. -/
def pdA : PaperData :=
  ⟨some "A", "Al", "2024-01-01", some "sa", "x/1", "p", "1", "t0"⟩

/-- The fields `buildPaperFields rawA "t1"` produces. -/
def pfA : PaperFields :=
  ⟨some "A", "Al", "2024-01-01", some "sa", some "x/1", "p", some "x/1", "t1"⟩

/-- Stored row: older `published_date`, later ingestion `timestamp`. -/
def rowX : PaperData :=
  ⟨some "X", "ax", "2024-02-01", some "sx", "u1", "", "1", "t9"⟩

/-- Stored row: newer `published_date`, earlier ingestion `timestamp`. -/
def rowY : PaperData :=
  ⟨some "Y", "ay", "2024-03-01", some "sy", "u2", "", "2", "t1"⟩

/-- A second submission of the paper stored as `rowX`: same natural key
(`arxiv_id`, `arxiv_url`), different incidental fields. -/
def rowX2 : PaperData :=
  ⟨some "X v2", "ax", "2024-02-05", some "sx2", "u1", "q", "1", "t10"⟩

/-- A config file whose keyword list is nonempty. -/
def cfgFileA : ConfigFile :=
  .valid ⟨some ["quantum"], some 10, some 4⟩

/-- A config store whose keywords change after startup: `["alpha"]` at run
0, `["beta"]` from run 1 on. -/
def storeAB : Nat → ConfigFile := fun n =>
  if n = 0 then .valid ⟨some ["alpha"], some 10, some 4⟩
  else .valid ⟨some ["beta"], some 10, some 4⟩

/-- An Airtable whose search endpoint raises (backend unreachable). -/
def stDown : AirtableState := ⟨[], true, false⟩

theorem charListLt_asymm :
    ∀ a b : List Char, charListLt a b = true → charListLt b a = false
  | [], [], h => by simp [charListLt] at h
  | [], _ :: _, _ => by simp [charListLt]
  | _ :: _, [], h => by simp [charListLt] at h
  | a :: as, b :: bs, h => by
    simp only [charListLt] at h ⊢
    rcases lt_trichotomy a b with hab | hab | hab
    · simp [asymm hab, hab]
    · subst hab
      simp only [lt_irrefl, if_false] at h ⊢
      exact charListLt_asymm as bs h
    · simp [asymm hab, hab] at h

theorem charListLt_false_trans :
    ∀ a b c : List Char, charListLt a b = false → charListLt b c = false →
      charListLt a c = false
  | [], [], c, _, h2 => h2
  | [], _ :: _, _, h1, _ => by simp [charListLt] at h1
  | _ :: _, _, [], _, _ => by simp [charListLt]
  | _ :: _, [], _ :: _, _, h2 => by simp [charListLt] at h2
  | x :: as, y :: bs, z :: cs, h1, h2 => by
    simp only [charListLt] at h1 h2 ⊢
    rcases lt_trichotomy x y with hxy | hxy | hxy
    · simp [hxy] at h1
    · subst hxy
      simp only [lt_irrefl, if_false] at h1
      rcases lt_trichotomy x z with hxz | hxz | hxz
      · simp [hxz] at h2
      · subst hxz
        simp only [lt_irrefl, if_false] at h2 ⊢
        exact charListLt_false_trans as bs cs h1 h2
      · simp [asymm hxz, hxz]
    · rcases lt_trichotomy y z with hyz | hyz | hyz
      · simp [hyz] at h2
      · subst hyz
        simp [asymm hxy, hxy]
      · simp [asymm (lt_trans hyz hxy), lt_trans hyz hxy]

theorem strLt_asymm (a b : String) (h : strLt a b = true) : strLt b a = false :=
  charListLt_asymm a.data b.data h

theorem strLt_false_trans (a b c : String) (h1 : strLt a b = false)
    (h2 : strLt b c = false) : strLt a c = false :=
  charListLt_false_trans a.data b.data c.data h1 h2

theorem insertDesc_perm (p : PaperData) :
    ∀ l : List PaperData, List.Perm (insertDesc p l) (p :: l)
  | [] => List.Perm.refl _
  | q :: rest => by
    unfold insertDesc
    by_cases h : strLt q.published_date p.published_date = true
    · rw [if_pos h]
    · rw [if_neg h]
      exact ((insertDesc_perm p rest).cons q).trans (List.Perm.swap p q rest)

theorem insertDesc_sorted (p : PaperData) :
    ∀ l : List PaperData, l.Pairwise descOk → (insertDesc p l).Pairwise descOk
  | [], _ => List.Pairwise.cons (by intro x hx; cases hx) List.Pairwise.nil
  | q :: rest, hl => by
    rw [List.pairwise_cons] at hl
    obtain ⟨hq, hrest⟩ := hl
    unfold insertDesc
    by_cases hqp : strLt q.published_date p.published_date = true
    · rw [if_pos hqp]
      refine List.Pairwise.cons ?_ (List.Pairwise.cons hq hrest)
      intro x hx
      rcases List.mem_cons.mp hx with hxq | hx2
      · subst hxq
        exact strLt_asymm _ _ hqp
      · exact strLt_false_trans _ _ _ (strLt_asymm _ _ hqp) (hq x hx2)
    · rw [if_neg hqp]
      refine List.Pairwise.cons ?_ (insertDesc_sorted p rest hrest)
      intro x hx
      rcases List.mem_cons.mp ((insertDesc_perm p rest).mem_iff.mp hx) with hxp | hx2
      · subst hxp
        exact Bool.eq_false_iff.mpr hqp
      · exact hq x hx2

theorem get_all_papers_perm (db : List PaperData) :
    List.Perm (get_all_papers db) db := by
  induction db with
  | nil => exact List.Perm.refl _
  | cons p rest ih =>
    have hstep : get_all_papers (p :: rest) = insertDesc p (get_all_papers rest) := rfl
    rw [hstep]
    exact (insertDesc_perm p _).trans (ih.cons p)

theorem get_all_papers_pairwise (db : List PaperData) :
    (get_all_papers db).Pairwise descOk := by
  induction db with
  | nil => exact List.Pairwise.nil
  | cons p rest ih => exact insertDesc_sorted p _ ih

/-- C1: inserting a Paper whose natural key (`arxiv_id`, backed by the
UNIQUE constraints the schema places on `arxiv_id` together with
`arxiv_url`) already has its one stored row leaves the table unchanged
(no overwrite, still exactly one row for that key) and reports the
duplicate by returning `False`. -/
theorem insert_paper_duplicate_rejected (db : List PaperData) (p : PaperData)
    (h : countId db p.arxiv_id = 1) :
    insert_paper db p = (false, db) ∧
    countId (insert_paper db p).2 p.arxiv_id = 1 := by
  have hpos : 0 < db.countP (fun q => q.arxiv_id == p.arxiv_id) := by
    unfold countId at h
    omega
  obtain ⟨q, hq, hqid⟩ := List.countP_pos_iff.mp hpos
  have hqeq : q.arxiv_id = p.arxiv_id := by simpa [beq_iff_eq] using hqid
  have huniq : uniqueOk db p = false := by
    apply List.all_eq_false.mpr
    refine ⟨q, hq, ?_⟩
    simp [hqeq]
  have hins : insert_paper db p = (false, db) := by
    unfold insert_paper
    rw [huniq]
    simp
  exact ⟨hins, by rw [hins]; exact h⟩

/-- C1 witness: the table holding exactly the row `rowX` rejects a second
submission `rowX2` carrying the same `arxiv_id`, keeping one row. -/
theorem insert_paper_duplicate_rejected_witness :
    insert_paper [rowX] rowX2 = (false, [rowX]) ∧
    countId (insert_paper [rowX] rowX2).2 rowX2.arxiv_id = 1 :=
  insert_paper_duplicate_rejected [rowX] rowX2 (by decide)

/-- C2 counterexample: a reachable table (two successful inserts) on which
`get_all_papers` is not sorted by ingestion `timestamp` descending — the
query orders by `published_date`, and `rowY` has the newer
`published_date` but the older `timestamp`. -/
theorem get_all_papers_not_by_ingestion_time :
    insert_paper [] rowX = (true, [rowX]) ∧
    insert_paper [rowX] rowY = (true, [rowX, rowY]) ∧
    get_all_papers [rowX, rowY] = [rowY, rowX] ∧
    ¬ (get_all_papers [rowX, rowY]).Pairwise
        (fun a b => strLt a.timestamp b.timestamp = false) := by
  refine ⟨by decide, by decide, by decide, fun hp => ?_⟩
  rw [show get_all_papers [rowX, rowY] = [rowY, rowX] from by decide] at hp
  have h2 := List.rel_of_pairwise_cons hp (List.mem_cons_self rowX [])
  exact absurd h2 (by decide)

/-- C2 (amended): `get_all_papers` returns a permutation of the stored
rows sorted by `published_date` (not by ingestion timestamp) in descending
order, for every table state. -/
theorem get_all_papers_sorted_by_published_date (db : List PaperData) :
    List.Perm (get_all_papers db) db ∧ (get_all_papers db).Pairwise descOk :=
  ⟨get_all_papers_perm db, get_all_papers_pairwise db⟩

/-- C9: `insert_paper` returns `True` exactly when the row passes the NOT
NULL checks and collides with no stored row on either unique column; on
`True` the table gains exactly the new row at the end, and on `False`
(duplicate or any other rejection) the table is left unchanged. -/
theorem insert_paper_true_iff_committed (db : List PaperData) (p : PaperData) :
    ((insert_paper db p).1 = true ↔
      (p.title.isSome = true ∧ p.summary.isSome = true ∧
        ∀ q ∈ db, q.arxiv_url ≠ p.arxiv_url ∧ q.arxiv_id ≠ p.arxiv_id)) ∧
    ((insert_paper db p).1 = true → (insert_paper db p).2 = db ++ [p]) ∧
    ((insert_paper db p).1 = false → (insert_paper db p).2 = db) := by
  unfold insert_paper
  by_cases hc : (notNullOk p && uniqueOk db p) = true
  · rw [if_pos hc]
    rw [Bool.and_eq_true] at hc
    obtain ⟨hn, hu⟩ := hc
    unfold notNullOk at hn
    rw [Bool.and_eq_true] at hn
    unfold uniqueOk at hu
    rw [List.all_eq_true] at hu
    refine ⟨?_, fun _ => rfl, fun hf => by simp at hf⟩
    constructor
    · intro _
      refine ⟨hn.1, hn.2, fun q hq => ?_⟩
      have hthis := hu q hq
      rw [Bool.and_eq_true, bne_iff_ne, bne_iff_ne] at hthis
      exact hthis
    · intro _
      rfl
  · rw [if_neg hc]
    refine ⟨?_, fun ht => by simp at ht, fun _ => rfl⟩
    constructor
    · intro hfalse
      simp at hfalse
    · rintro ⟨h1, h2, h3⟩
      exfalso
      apply hc
      rw [Bool.and_eq_true]
      constructor
      · unfold notNullOk
        rw [Bool.and_eq_true]
        exact ⟨h1, h2⟩
      · unfold uniqueOk
        rw [List.all_eq_true]
        intro q hq
        rw [Bool.and_eq_true, bne_iff_ne, bne_iff_ne]
        exact h3 q hq

/-- C9 witness: the characterization evaluated at the empty table and
`rowX` (the insert succeeds and commits exactly that row). -/
theorem insert_paper_true_iff_committed_witness :
    ((insert_paper [] rowX).1 = true ↔
      (rowX.title.isSome = true ∧ rowX.summary.isSome = true ∧
        ∀ q ∈ ([] : List PaperData),
          q.arxiv_url ≠ rowX.arxiv_url ∧ q.arxiv_id ≠ rowX.arxiv_id)) ∧
    ((insert_paper [] rowX).1 = true → (insert_paper [] rowX).2 = [] ++ [rowX]) ∧
    ((insert_paper [] rowX).1 = false → (insert_paper [] rowX).2 = []) :=
  insert_paper_true_iff_committed [] rowX

theorem fetchLoop_prefix (rs : List RawResult) (rest : List FetchEvent) :
    ∀ acc, fetchLoop acc (rs.map Except.ok ++ Except.error () :: rest)
      = (acc ++ rs, true) := by
  induction rs with
  | nil => intro acc; simp [fetchLoop]
  | cons r rs ih =>
    intro acc
    have hstep : fetchLoop acc ((r :: rs).map Except.ok ++ Except.error () :: rest)
        = fetchLoop (acc ++ [r]) (rs.map Except.ok ++ Except.error () :: rest) := rfl
    rw [hstep, ih]
    simp

/-- C4 counterexample: an API stream that yields one result and then
raises; `search_arxiv` logs the error yet returns one result, not zero. -/
theorem search_arxiv_error_partial_results :
    (search_arxiv [Except.ok rawA, Except.error ()]).2 = true ∧
    (search_arxiv [Except.ok rawA, Except.error ()]).1 ≠ [] :=
  ⟨by decide, by decide⟩

/-- C4 (amended): when the API raises at any point of the fetch,
`search_arxiv` catches it, logs it, and returns exactly the results
yielded before the error (possibly zero but in general a partial prefix);
the scheduled-loop iteration using that stream still reaches its
sleep-and-repeat point, so the next run is unaffected. -/
theorem search_arxiv_error_returns_prefix (rs : List RawResult)
    (rest : List FetchEvent) (f : ConfigFile) (now : String)
    (db : List PaperData) :
    search_arxiv (rs.map Except.ok ++ Except.error () :: rest) = (rs, true) ∧
    (run_scheduled_bot_iter f (rs.map Except.ok ++ Except.error () :: rest)
        now db).continues = true := by
  constructor
  · have hpre := fetchLoop_prefix rs rest []
    simpa [search_arxiv] using hpre
  · unfold run_scheduled_bot_iter
    by_cases h : (cfgKeywords (load_config f)).isEmpty = true
    · simp [h]
    · simp [h]

/-- C5 counterexample: a batch whose first result lacks its entry
identifier aborts the whole loop — the following well-formed result is
never offered to the store (`attempts = []`) and the run body raises. -/
theorem malformed_result_aborts_batch :
    rawNoId.entry_id = none ∧
    buildPaperData rawA "t0" = Except.ok pdA ∧
    logLoop [] "t0" [rawNoId, rawA] = ⟨[], 0, [], true⟩ :=
  ⟨rfl, rfl, by decide⟩

/-- C5 (amended): a raw result missing its `title` is rejected row-wise by
the store's NOT NULL constraint and the rest of the batch is still
processed (same table, same count, one extra attempt); but a raw result
missing its entry identifier (or its publication date) raises during
normalization, aborting the remaining batch with the table unchanged —
the scheduled loop's outer handler then catches the exception. -/
theorem missing_title_skipped_missing_id_aborts (db : List PaperData)
    (now pub eid : String) (r rbad : RawResult) (rest restb : List RawResult)
    (hpub : r.published = some pub) (heid : r.entry_id = some eid)
    (htitle : r.title = none) (hbad : rbad.entry_id = none) :
    ((logLoop db now (r :: rest)).db = (logLoop db now rest).db ∧
      (logLoop db now (r :: rest)).logged = (logLoop db now rest).logged ∧
      (logLoop db now (r :: rest)).aborted = (logLoop db now rest).aborted ∧
      (logLoop db now (r :: rest)).attempts.length
        = (logLoop db now rest).attempts.length + 1) ∧
    logLoop db now (rbad :: restb) = ⟨db, 0, [], true⟩ := by
  have hb : buildPaperData r now =
      Except.ok ⟨r.title, String.intercalate ", " r.authors, pub, r.summary,
        eid, r.pdf_url.getD "", splitLast eid, now⟩ := by
    unfold buildPaperData
    rw [hpub, heid]
  have hnn : notNullOk ⟨r.title, String.intercalate ", " r.authors, pub,
      r.summary, eid, r.pdf_url.getD "", splitLast eid, now⟩ = false := by
    unfold notNullOk
    rw [htitle]
    rfl
  have hins : insert_paper db ⟨r.title, String.intercalate ", " r.authors, pub,
      r.summary, eid, r.pdf_url.getD "", splitLast eid, now⟩ = (false, db) := by
    unfold insert_paper
    rw [hnn]
    rfl
  have hbadbuild : buildPaperData rbad now = Except.error () := by
    unfold buildPaperData
    cases hp2 : rbad.published with
    | none => rfl
    | some pub2 => rw [hbad]
  constructor
  · simp [logLoop, hb, hins]
  · simp only [logLoop, hbadbuild]

/-- C5 witness: the amended behaviour evaluated with the title-less result
`rawNoTitle` (skipped, batch continues) and the id-less result `rawNoId`
(batch aborts). -/
theorem missing_title_skipped_missing_id_aborts_witness :
    (rawNoTitle.published = some "2024-01-03" ∧
      rawNoTitle.entry_id = some "x/3" ∧ rawNoTitle.title = none ∧
      rawNoId.entry_id = none) ∧
    (((logLoop [] "t0" (rawNoTitle :: [rawA])).db
          = (logLoop [] "t0" [rawA]).db ∧
        (logLoop [] "t0" (rawNoTitle :: [rawA])).logged
          = (logLoop [] "t0" [rawA]).logged ∧
        (logLoop [] "t0" (rawNoTitle :: [rawA])).aborted
          = (logLoop [] "t0" [rawA]).aborted ∧
        (logLoop [] "t0" (rawNoTitle :: [rawA])).attempts.length
          = (logLoop [] "t0" [rawA]).attempts.length + 1) ∧
      logLoop [] "t0" (rawNoId :: [rawA]) = ⟨[], 0, [], true⟩) :=
  ⟨⟨rfl, rfl, rfl, rfl⟩,
    missing_title_skipped_missing_id_aborts [] "t0" "2024-01-03" "x/3"
      rawNoTitle rawNoId [rawA] [rawA] rfl rfl rfl rfl⟩

/-- C6: a scheduled-loop iteration that reads an empty keyword list
(including a missing or invalid `config.json`, which `load_config` turns
into the empty dict) performs zero fetches and zero inserts, prints the
skip reason, catches nothing, and still reaches the sleep that leads to
the next tick — the table and process are untouched. -/
theorem empty_keywords_run_is_noop (f : ConfigFile) (events : List FetchEvent)
    (now : String) (db : List PaperData)
    (h : cfgKeywords (load_config f) = []) :
    run_scheduled_bot_iter f events now db
      = ⟨db, 0, 0, [], true, false, true, []⟩ := by
  unfold run_scheduled_bot_iter
  rw [h]
  rfl

/-- C6 witness: a missing config file loads as the empty keyword list, and
the iteration (with a nonempty API stream available) does nothing. -/
theorem empty_keywords_run_is_noop_witness :
    cfgKeywords (load_config ConfigFile.missing) = [] ∧
    run_scheduled_bot_iter ConfigFile.missing [Except.ok rawA] "t0" [rowX]
      = ⟨[rowX], 0, 0, [], true, false, true, []⟩ :=
  ⟨rfl, empty_keywords_run_is_noop ConfigFile.missing [Except.ok rawA] "t0"
    [rowX] rfl⟩

/-- C3 counterexample: nothing serializes the two invocation paths — a
scheduled run and a manual `/fetch_and_log` that both receive the new
entry `"x/1"` BOTH pass its record to `insert_paper` (each makes one
attempt for `arxiv_id` `"1"`); only the store's constraint, not any lock
or wait, leaves the single row. -/
theorem both_invocations_attempt_same_id :
    ((run_scheduled_bot_iter cfgFileA [Except.ok rawA] "t0" []).attempts.countP
        (fun p => p.arxiv_id == "1")) = 1 ∧
    ((fetch_and_log cfgFileA [Except.ok rawA] "t1"
        (run_scheduled_bot_iter cfgFileA [Except.ok rawA] "t0" []).db).attempts.countP
        (fun p => p.arxiv_id == "1")) = 1 ∧
    countId (fetch_and_log cfgFileA [Except.ok rawA] "t1"
        (run_scheduled_bot_iter cfgFileA [Except.ok rawA] "t0" []).db).db "1" = 1 :=
  ⟨by decide, by decide, by decide⟩

theorem countId_append (db : List PaperData) (p : PaperData) (k : String) :
    countId (db ++ [p]) k
      = countId db k + (if p.arxiv_id == k then 1 else 0) := by
  unfold countId
  rw [List.countP_append]
  cases hik : (p.arxiv_id == k) with
  | true => simp [List.countP, List.countP.go, hik]
  | false => simp [List.countP, List.countP.go, hik]

theorem applyInserts_at_most_one (k : String) :
    ∀ (l : List PaperData) (db : List PaperData), countId db k ≤ 1 →
      countId (applyInserts db l).1 k ≤ 1
  | [], _, h => h
  | p :: rest, db, h => by
    have hstep : (applyInserts db (p :: rest)).1
        = (applyInserts (insert_paper db p).2 rest).1 := rfl
    rw [hstep]
    apply applyInserts_at_most_one k rest
    unfold insert_paper
    by_cases hc : (notNullOk p && uniqueOk db p) = true
    · rw [if_pos hc]
      cases hik : (p.arxiv_id == k) with
      | false =>
        rw [countId_append, hik]
        simpa using h
      | true =>
        have hu : uniqueOk db p = true := by
          rw [Bool.and_eq_true] at hc
          exact hc.2
        have hzero : countId db k = 0 := by
          unfold countId
          rw [List.countP_eq_zero]
          intro q hq
          have hall := List.all_eq_true.mp hu q hq
          rw [Bool.and_eq_true, bne_iff_ne, bne_iff_ne] at hall
          have hk : p.arxiv_id = k := by simpa [beq_iff_eq] using hik
          simp [beq_iff_eq, ← hk]
          exact hall.2
        rw [countId_append, hik, hzero]
        simp
    · rw [if_neg hc]
      exact h

/-- C3 (amended): the two invocation paths share no lock — both may
attempt the same new `source_id` (see the counterexample) — but every
serialized interleaving of their individual atomic INSERTs keeps at most
one stored row per `arxiv_id`, and when both runs submit the same record
the first attempt succeeds and the second is rejected by the uniqueness
constraint, ending with exactly one stored row. -/
theorem interleaved_inserts_keep_one_row (p : PaperData) (db : List PaperData)
    (l : List PaperData) (k : String)
    (hp : notNullOk p = true) (h : countId db k ≤ 1) :
    countId (applyInserts db l).1 k ≤ 1 ∧
    applyInserts [] [p, p] = ([p], [true, false]) := by
  refine ⟨applyInserts_at_most_one k l db h, ?_⟩
  have h1 : insert_paper [] p = (true, [p]) := by
    unfold insert_paper uniqueOk
    simp [hp]
  have h2 : insert_paper [p] p = (false, [p]) := by
    unfold insert_paper uniqueOk
    simp
  simp [applyInserts, h1, h2]

/-- C3 witness: the amended statement evaluated at the concrete record
`pdA`, key `"1"`, and a one-attempt interleaving from the empty table. -/
theorem interleaved_inserts_keep_one_row_witness :
    (notNullOk pdA = true ∧ countId [] "1" ≤ 1) ∧
    (countId (applyInserts [] [pdA]).1 "1" ≤ 1 ∧
      applyInserts [] [pdA, pdA] = ([pdA], [true, false])) :=
  ⟨⟨by decide, by decide⟩,
    interleaved_inserts_keep_one_row pdA [] [pdA] "1" (by decide) (by decide)⟩

/-- C7: evaluation at the failing input — with the Airtable logger
unavailable, the CSV fallback path of main.py appends a paper whose
`ArXiv ID` already has a row in `logged_papers.csv`, with no existence
check of any kind, leaving two rows for the same natural key. -/
theorem csv_fallback_appends_without_check :
    (main_step none [pfA] rawA "t1").existenceChecked = false ∧
    (main_step none [pfA] rawA "t1").appended = true ∧
    (main_step none [pfA] rawA "t1").csv.countP
      (fun q => q.arxiv_id == some "x/1") = 2 :=
  ⟨by decide, by decide, by decide⟩

/-- C8 counterexample: with the keyword file edited from `["alpha"]` to
`["beta"]` after startup, run 1 of main.py's loop still searches with the
startup value `["alpha"]`, not the value a fresh load would return. -/
theorem main_variant_keywords_cached :
    main_used_keywords storeAB 1 = some ["alpha"] ∧
    cfgKeywords (load_config (storeAB 1)) = ["beta"] ∧
    main_used_keywords storeAB 1 ≠ some (cfgKeywords (load_config (storeAB 1))) :=
  ⟨by decide, by decide, by decide⟩

/-- C8 (amended): in the Flask variant (app.py) both the scheduled loop
and the manual `/fetch_and_log` route re-load `config.json` at the start
of each run, so run `n` is parameterized by the keywords stored at run
`n`; the standalone variant (main.py) instead binds the keywords once at
startup and every later run reuses that cached value. -/
theorem app_runs_load_keywords_fresh (store : Nat → ConfigFile)
    (events : Nat → List FetchEvent) (nows : Nat → String)
    (db : List PaperData) (n : Nat) (f : ConfigFile)
    (ev : List FetchEvent) (now : String) (db2 : List PaperData) :
    (app_run_outcome store events nows db n).usedKeywords
      = cfgKeywords (load_config (store n)) ∧
    (fetch_and_log f ev now db2).usedKeywords = cfgKeywords (load_config f) ∧
    main_used_keywords store n = main_used_keywords store 0 := by
  refine ⟨?_, ?_, rfl⟩
  · unfold app_run_outcome run_scheduled_bot_iter
    by_cases h : (cfgKeywords (load_config (store n))).isEmpty = true
    · simp [h]
    · simp [h]
  · unfold fetch_and_log
    by_cases h : (cfgKeywords (load_config f)).isEmpty = true
    · simp [h]
    · simp [h]

/-- C10: when the Airtable search endpoint itself raises, `record_exists`
catches the exception and returns `False`, and the main loop therefore
treats the paper as new and calls `create_record` — the outage fails open
into an insert attempt rather than skipping the record. -/
theorem record_exists_fails_open (st : AirtableState) (csv : List PaperFields)
    (r : RawResult) (now pub : String)
    (hfail : st.searchFails = true) (hpub : r.published = some pub) :
    record_exists st r.entry_id = false ∧
    (main_step (some st) csv r now).insertAttempted = true := by
  have hre : record_exists st r.entry_id = false := by
    unfold record_exists
    rw [hfail]
    rfl
  refine ⟨hre, ?_⟩
  have hb : buildPaperFields r now =
      Except.ok ⟨r.title, String.intercalate ", " r.authors, pub, r.summary,
        r.entry_id, r.pdf_url.getD "", r.entry_id, now⟩ := by
    unfold buildPaperFields
    rw [hpub]
  simp only [main_step, hre, hb]
  rfl

/-- C10 witness: the fail-open behaviour at an unreachable Airtable
(`stDown`) and the well-formed result `rawA`. -/
theorem record_exists_fails_open_witness :
    (stDown.searchFails = true ∧ rawA.published = some "2024-01-01") ∧
    (record_exists stDown rawA.entry_id = false ∧
      (main_step (some stDown) [] rawA "t1").insertAttempted = true) :=
  ⟨⟨rfl, rfl⟩, record_exists_fails_open stDown [] rawA "t1" "2024-01-01" rfl rfl⟩

end ResearcherBot
